import Mathlib

/- Shallow embedding of the URL-Shortener Django application.
   Source files embedded here: url_shortener/models.py,
   url_shortener/serializers.py, url_shortener/internal_views.py.
   Machine state (the relational store) is passed explicitly as lists of
   rows; randomness (secrets.choice) and external timestamp parsers
   (dateutil.parser.parse, django parse_datetime) are abstracted as
   function parameters; Python exceptions are modelled with Except. -/

/-- A value held by the expires_at field: normally a structured datetime
(an epoch instant, modelled as Int), but ShortURL.is_expired also tolerates
a raw string-encoded timestamp. -/
inductive TimeVal where
  | dt (t : Int)
  | str (s : String)
deriving DecidableEq

/-- Python truthiness of an optional expires_at value as tested by
the line if self.expires_at: None and the empty string are falsy;
every datetime and every nonempty string is truthy. -/
def timeValTruthy : Option TimeVal → Bool
  | none => false
  | some (TimeVal.dt _) => true
  | some (TimeVal.str s) => s != ""

/-- A row of the short_urls table / a ShortURL model instance
(models.py, class ShortURL). -/
structure ShortURL where
  pk : Nat
  short_code : Option String
  original_url : String
  domain : Option String
  title : String
  clicks : Int
  created_at : Int
  updated_at : Int
  expires_at : Option TimeVal
  is_active : Bool
deriving DecidableEq

/-- Python truthiness of the optional short_code field as tested by
the line if not self.short_code. -/
def codeTruthy : Option String → Bool
  | none => false
  | some s => s != ""

/-- characters = string.ascii_letters + string.digits (models.py line 13):
the 62-character alphanumeric alphabet. -/
def characters : List Char :=
  String.toList "abcdefghijklmnopqrstuvwxyzABCDEFGHIJKLMNOPQRSTUVWXYZ0123456789"

/-- generate_short_code(length) (models.py lines 11-14): joins length
independent draws from the alphabet; the secure random source
secrets.choice is abstracted as the function choice. -/
def generate_short_code (choice : Nat → Fin 62) (length : Nat) : String :=
  String.mk ((List.range length).map (fun i => characters.getD ((choice i) : Nat) 'a'))

/-- ShortURL.objects.filter(short_code=code, domain=domain).exists():
the advisory existence pre-check used by ShortURL.save. -/
def codeExists (store : List ShortURL) (domain : Option String) (code : String) : Bool :=
  store.any (fun r => r.short_code == some code && r.domain == domain)

/-- Failure of the INSERT: the database unique constraint on
(domain, short_code) (ShortURL.Meta.constraints) rejects a duplicate pair;
the spec surfaces this as ConflictError. -/
inductive SaveError where
  | conflictError
deriving DecidableEq

/-- The INSERT performed by super().save() under the unique constraint
short_urls_domain_short_code_unique: a row whose (domain, short_code)
pair is already present is refused and the table is left unchanged;
otherwise the row is appended. -/
def insertRow (store : List ShortURL) (row : ShortURL) :
    List ShortURL × Except SaveError ShortURL :=
  if store.any (fun r => r.short_code == row.short_code && r.domain == row.domain) then
    (store, Except.error SaveError.conflictError)
  else (store ++ [row], Except.ok row)

/-- The for-loop of ShortURL.save (models.py lines 94-99): attempt i draws
candidate (cand i) and takes it when no row of this domain already holds
it; fuel counts the remaining attempts; none means every attempt collided. -/
def candidateLoop (store : List ShortURL) (domain : Option String)
    (cand : Nat → String) : Nat → Nat → Option String
  | _, 0 => none
  | i, Nat.succ fuel =>
    if codeExists store domain (cand i) then candidateLoop store domain cand (i + 1) fuel
    else some (cand i)

/-- ShortURL.save (models.py lines 90-105): with a truthy short_code the
row is inserted as supplied; otherwise up to 10 length-6 candidates are
tried against the existence check, falling back to a single unchecked
length-8 candidate, and then the insert is attempted. rnd i is the random
source of the i-th length-6 draw, rnd8 that of the fallback draw. -/
def ShortURL.save (rnd : Nat → Nat → Fin 62) (rnd8 : Nat → Fin 62)
    (self : ShortURL) (store : List ShortURL) :
    List ShortURL × Except SaveError ShortURL :=
  if codeTruthy self.short_code then insertRow store self
  else
    match candidateLoop store self.domain (fun i => generate_short_code (rnd i) 6) 0 10 with
    | some c => insertRow store { self with short_code := some c }
    | none => insertRow store { self with short_code := some (generate_short_code rnd8 8) }

/-- ShortURL.is_expired (models.py lines 112-121): with a truthy
expires_at, a string value goes through dateutil parser.parse (abstracted
as parse; a parse failure raises ValueError, modelled as Except.error) and
is then compared to now exactly like a datetime value; a falsy expires_at
is never expired. -/
def ShortURL.is_expired (parse : String → Option Int) (now : Int)
    (self : ShortURL) : Except String Bool :=
  if timeValTruthy self.expires_at then
    match self.expires_at with
    | some (TimeVal.str s) =>
      match parse s with
      | some t => Except.ok (decide (now > t))
      | none => Except.error "ValueError"
    | some (TimeVal.dt t) => Except.ok (decide (now > t))
    | none => Except.ok false
  else Except.ok false

/-- ShortURLResponseSerializer.get_is_expired (serializers.py lines
85-91): returns obj.is_expired(), turning a raised TypeError or
ValueError into False. -/
def get_is_expired (parse : String → Option Int) (now : Int) (self : ShortURL) : Bool :=
  match self.is_expired parse now with
  | Except.ok b => b
  | Except.error _ => false

/-- ShortURL.increment_clicks (models.py lines 123-125):
ShortURL.objects.filter(pk=pk).update(clicks=F(clicks) + 1), a single
in-place update at the storage layer keyed on the stored value. -/
def increment_clicks (pk : Nat) (store : List ShortURL) : List ShortURL :=
  store.map (fun r => if r.pk == pk then { r with clicks := r.clicks + 1 } else r)

/-- A row of the domain_configurations table / a DomainConfiguration
model instance (models.py, class DomainConfiguration). -/
structure DomainConfiguration where
  domain : String
  account_id : Int
  domain_type : String
  is_verified : Bool
  is_active : Bool
  ssl_status : String
  ssl_issued_at : Option Int
  ssl_expires_at : Option Int
  use_caddy : Bool
  notes : String
deriving DecidableEq

/-- The SSL_STATUS_CHOICES enum of DomainConfiguration
(models.py lines 168-173). -/
def validSslStatus (s : String) : Bool :=
  s == "pending" || s == "active" || s == "failed" || s == "expired"

/-- Every stored configuration holds an ssl_status drawn from
SSL_STATUS_CHOICES. -/
def sslInvariant (store : List DomainConfiguration) : Prop :=
  ∀ c ∈ store, validSslStatus c.ssl_status = true

/-- existing.save(): writes the modified row back over the stored row
with the same domain (the domain column is unique). -/
def writeBack (store : List DomainConfiguration) (c : DomainConfiguration) :
    List DomainConfiguration :=
  store.map (fun r => if r.domain == c.domain then c else r)

/-- Outcome of configure_domain: 201 created, 200 reactivated, or
409 conflict. -/
inductive ConfigureResult where
  | created (c : DomainConfiguration)
  | reactivated (c : DomainConfiguration)
  | conflict
deriving DecidableEq

/-- configure_domain (internal_views.py lines 61-187) on validated data:
an unknown domain is created pending, unverified and active; an existing
inactive domain is reactivated with its mutable fields overwritten and
ssl_status reset to pending; an existing active domain is a conflict and
the store is untouched. -/
def configure_domain (store : List DomainConfiguration) (domain : String)
    (account_id : Int) (domain_type : String) (use_caddy : Bool) (notes : String) :
    List DomainConfiguration × ConfigureResult :=
  match store.find? (fun r => r.domain == domain) with
  | some existing =>
    if existing.is_active then (store, ConfigureResult.conflict)
    else
      let c := { existing with
        is_active := true
        account_id := account_id
        domain_type := domain_type
        use_caddy := use_caddy
        notes := notes
        ssl_status := "pending" }
      (writeBack store c, ConfigureResult.reactivated c)
  | none =>
    let c : DomainConfiguration := {
      domain := domain
      account_id := account_id
      domain_type := domain_type
      is_verified := false
      is_active := true
      ssl_status := "pending"
      ssl_issued_at := none
      ssl_expires_at := none
      use_caddy := use_caddy
      notes := notes }
    (store ++ [c], ConfigureResult.created c)

/-- Outcome of update_domain_ssl_status: 200 with the saved row, or 404. -/
inductive SslUpdateResult where
  | ok (c : DomainConfiguration)
  | notFound
deriving DecidableEq

/-- update_domain_ssl_status (internal_views.py lines 341-399): each
truthy request field overwrites the corresponding column (timestamps go
through django parse_datetime, abstracted as pd), and a supplied status
equal to active additionally marks the domain verified; the row is then
saved back. -/
def update_domain_ssl_status (pd : String → Option Int)
    (store : List DomainConfiguration) (domain : String)
    (ssl_status ssl_issued_at ssl_expires_at : Option String) :
    List DomainConfiguration × SslUpdateResult :=
  match store.find? (fun r => r.domain == domain) with
  | none => (store, SslUpdateResult.notFound)
  | some c0 =>
    let c1 := match ssl_status with
      | some s => if s != "" then { c0 with ssl_status := s } else c0
      | none => c0
    let c2 := match ssl_issued_at with
      | some s => if s != "" then { c1 with ssl_issued_at := pd s } else c1
      | none => c1
    let c3 := match ssl_expires_at with
      | some s => if s != "" then { c2 with ssl_expires_at := pd s } else c2
      | none => c2
    let c4 := if ssl_status == some "active" then { c3 with is_verified := true } else c3
    (writeBack store c4, SslUpdateResult.ok c4)

/-- Outcome of remove_domain: hard delete, soft deactivation, or 404. -/
inductive RemoveResult where
  | removed
  | deactivated
  | notFound
deriving DecidableEq

/-- remove_domain (internal_views.py lines 235-285): a hard delete drops
the row, otherwise is_active is set false and the row saved back. -/
def remove_domain (store : List DomainConfiguration) (domain : String)
    (hard_delete : Bool) : List DomainConfiguration × RemoveResult :=
  match store.find? (fun r => r.domain == domain) with
  | none => (store, RemoveResult.notFound)
  | some c =>
    if hard_delete then
      (store.filter (fun r => !(r.domain == domain)), RemoveResult.removed)
    else (writeBack store { c with is_active := false }, RemoveResult.deactivated)

/- Concrete fixtures used by the closed witness theorems. -/

/-- Fixture: a degenerate random source that always draws index 0. -/
def zeroRnd : Nat → Nat → Fin 62 := fun _ _ => 0

/-- Fixture: a degenerate random source for the length-8 fallback draw. -/
def zeroRnd8 : Nat → Fin 62 := fun _ => 0

/-- Fixture: a timestamp parser that rejects every string. -/
def noParse : String → Option Int := fun _ => none

/-- Fixture: a row submitted for allocation with no caller-supplied code. -/
def rowAuto : ShortURL :=
  { pk := 0, short_code := none, original_url := "https://example.com",
    domain := some "go.example", title := "", clicks := 0, created_at := 0,
    updated_at := 0, expires_at := none, is_active := true }

/-- Fixture: an already stored row holding the pair (go.example, promo1). -/
def rowPromo : ShortURL :=
  { pk := 0, short_code := some "promo1", original_url := "https://example.com/page",
    domain := some "go.example", title := "", clicks := 0, created_at := 0,
    updated_at := 0, expires_at := none, is_active := true }

/-- Fixture: a second row submitted with the explicit code promo1. -/
def rowPromoOther : ShortURL :=
  { pk := 1, short_code := some "promo1", original_url := "https://example.com/other",
    domain := some "go.example", title := "", clicks := 0, created_at := 0,
    updated_at := 0, expires_at := none, is_active := true }

/-- Fixture: a pending, unverified, active domain configuration. -/
def dcPending : DomainConfiguration :=
  { domain := "forms.client.com", account_id := 42, domain_type := "forms",
    is_verified := false, is_active := true, ssl_status := "pending",
    ssl_issued_at := none, ssl_expires_at := none, use_caddy := true, notes := "" }

/-- Fixture: a deactivated but previously verified domain configuration. -/
def dcInactiveVerified : DomainConfiguration :=
  { domain := "forms.client.com", account_id := 42, domain_type := "forms",
    is_verified := true, is_active := false, ssl_status := "expired",
    ssl_issued_at := some 100, ssl_expires_at := some 200, use_caddy := true,
    notes := "old" }

/- ------------------------------------------------------------------ -/
/- Theorems about the expiry check and the click counter.             -/
/- ------------------------------------------------------------------ -/

/-- C4: the expiration predicate is true iff expires_at is set and its
value is strictly earlier than the current time: an entry with expires_at
unset never expires, one with a past expires_at is expired, one with a
future (or exactly current) expires_at is not. -/
theorem is_expired_iff_past (parse : String → Option Int) (now : Int) (u : ShortURL) :
    (u.expires_at = none → u.is_expired parse now = Except.ok false) ∧
    (∀ t, u.expires_at = some (TimeVal.dt t) →
      (u.is_expired parse now = Except.ok true ↔ t < now) ∧
      (u.is_expired parse now = Except.ok false ↔ ¬ t < now)) := by
  constructor
  · intro h
    simp [ShortURL.is_expired, h, timeValTruthy]
  · intro t h
    simp [ShortURL.is_expired, h, timeValTruthy]

/-- C4 witness: a concrete entry expiring at instant 5, checked at
instant 10, is expired. -/
theorem is_expired_iff_past_witness :
    ({ pk := 1, short_code := some "promo1", original_url := "https://example.com/page",
       domain := some "go.example", title := "", clicks := 0, created_at := 0,
       updated_at := 0, expires_at := some (TimeVal.dt 5), is_active := true
       : ShortURL }.expires_at = some (TimeVal.dt 5)) ∧
    ({ pk := 1, short_code := some "promo1", original_url := "https://example.com/page",
       domain := some "go.example", title := "", clicks := 0, created_at := 0,
       updated_at := 0, expires_at := some (TimeVal.dt 5), is_active := true
       : ShortURL }.is_expired (fun _ => none) 10 = Except.ok true ↔ (5 : Int) < 10) :=
  ⟨rfl, ((is_expired_iff_past (fun _ => none) 10 _).2 5 rfl).1⟩

/-- C3: for a string-valued expires_at, the serializer-level expiration
check compares the parsed instant to now exactly as it would a structured
timestamp, and when the string fails to parse it returns false (not
expired) instead of propagating the raised ValueError. -/
theorem get_is_expired_string_handling (parse : String → Option Int) (now : Int)
    (u : ShortURL) (s : String) (h : u.expires_at = some (TimeVal.str s)) :
    (parse s = none → get_is_expired parse now u = false) ∧
    (∀ t, parse s = some t → s ≠ "" →
      get_is_expired parse now u =
        get_is_expired parse now { u with expires_at := some (TimeVal.dt t) }) := by
  constructor
  · intro hp
    by_cases hs : s = ""
    · subst hs
      simp [get_is_expired, ShortURL.is_expired, h, timeValTruthy]
    · simp [get_is_expired, ShortURL.is_expired, h, timeValTruthy, hs, hp]
  · intro t hp hs
    simp [get_is_expired, ShortURL.is_expired, h, timeValTruthy, hs, hp]

/-- C3 witness: a concrete entry with an unparseable string expiry is
reported not expired. -/
theorem get_is_expired_string_handling_witness :
    ({ pk := 1, short_code := some "promo1", original_url := "https://example.com/page",
       domain := some "go.example", title := "", clicks := 0, created_at := 0,
       updated_at := 0, expires_at := some (TimeVal.str "garbage"), is_active := true
       : ShortURL }.expires_at = some (TimeVal.str "garbage")) ∧
    ((fun (_ : String) => (none : Option Int)) "garbage" = none →
      get_is_expired (fun _ => none) 10
        { pk := 1, short_code := some "promo1", original_url := "https://example.com/page",
          domain := some "go.example", title := "", clicks := 0, created_at := 0,
          updated_at := 0, expires_at := some (TimeVal.str "garbage"), is_active := true
          : ShortURL } = false) :=
  ⟨rfl, (get_is_expired_string_handling (fun _ => none) 10 _ "garbage" rfl).1⟩

/-- C5: increment_clicks maps the row with the given primary key to the
same row with clicks replaced by its stored value plus one, leaves every
other field of that row and every other row unchanged, and preserves the
shape of the store. -/
theorem increment_clicks_frame (store : List ShortURL) (pk i : Nat) (r : ShortURL)
    (h : store[i]? = some r) :
    (increment_clicks pk store).length = store.length ∧
    ∃ r', (increment_clicks pk store)[i]? = some r' ∧
      (r.pk = pk → r'.clicks = r.clicks + 1) ∧
      (r.pk ≠ pk → r' = r) ∧
      r'.pk = r.pk ∧ r'.short_code = r.short_code ∧
      r'.original_url = r.original_url ∧ r'.domain = r.domain ∧
      r'.title = r.title ∧ r'.created_at = r.created_at ∧
      r'.updated_at = r.updated_at ∧ r'.expires_at = r.expires_at ∧
      r'.is_active = r.is_active := by
  refine ⟨by simp [increment_clicks], ?_⟩
  refine ⟨if r.pk == pk then { r with clicks := r.clicks + 1 } else r, ?_, ?_, ?_⟩
  · simp [increment_clicks, List.getElem?_map, h]
  · intro hpk
    simp [hpk]
  · refine ⟨?_, ?_⟩
    · intro hpk
      simp [hpk]
    · by_cases hpk : r.pk = pk <;> simp [hpk]

/-- C5 witness: a concrete one-row store with matching primary key gets
exactly its clicks incremented. -/
theorem increment_clicks_frame_witness :
    ([({ pk := 7, short_code := some "abc123", original_url := "https://example.com",
         domain := some "go.example", title := "", clicks := 3, created_at := 0,
         updated_at := 0, expires_at := none, is_active := true : ShortURL })][0]? =
      some { pk := 7, short_code := some "abc123", original_url := "https://example.com",
             domain := some "go.example", title := "", clicks := 3, created_at := 0,
             updated_at := 0, expires_at := none, is_active := true }) ∧
    ((increment_clicks 7
        [({ pk := 7, short_code := some "abc123", original_url := "https://example.com",
            domain := some "go.example", title := "", clicks := 3, created_at := 0,
            updated_at := 0, expires_at := none, is_active := true : ShortURL })]).length = 1 ∧
      ∃ r', (increment_clicks 7
        [({ pk := 7, short_code := some "abc123", original_url := "https://example.com",
            domain := some "go.example", title := "", clicks := 3, created_at := 0,
            updated_at := 0, expires_at := none, is_active := true : ShortURL })])[0]? = some r' ∧
      (({ pk := 7, short_code := some "abc123", original_url := "https://example.com",
          domain := some "go.example", title := "", clicks := 3, created_at := 0,
          updated_at := 0, expires_at := none, is_active := true : ShortURL }).pk = 7 →
        r'.clicks = 3 + 1) ∧
      (({ pk := 7, short_code := some "abc123", original_url := "https://example.com",
          domain := some "go.example", title := "", clicks := 3, created_at := 0,
          updated_at := 0, expires_at := none, is_active := true : ShortURL }).pk ≠ 7 →
        r' = { pk := 7, short_code := some "abc123", original_url := "https://example.com",
               domain := some "go.example", title := "", clicks := 3, created_at := 0,
               updated_at := 0, expires_at := none, is_active := true }) ∧
      r'.pk = 7 ∧ r'.short_code = some "abc123" ∧
      r'.original_url = "https://example.com" ∧ r'.domain = some "go.example" ∧
      r'.title = "" ∧ r'.created_at = 0 ∧ r'.updated_at = 0 ∧ r'.expires_at = none ∧
      r'.is_active = true) :=
  ⟨rfl, increment_clicks_frame _ 7 0 _ rfl⟩

/-- C10: when no stored row has the given primary key, increment_clicks
returns the store unchanged (and, being total, raises nothing). -/
theorem increment_clicks_missing_pk_noop (store : List ShortURL) (pk : Nat)
    (h : ∀ r ∈ store, r.pk ≠ pk) :
    increment_clicks pk store = store := by
  induction store with
  | nil => rfl
  | cons a rest ih =>
    have ha : a.pk ≠ pk := h a (List.mem_cons_self a rest)
    have hrest : ∀ r ∈ rest, r.pk ≠ pk := fun r hr => h r (List.mem_cons_of_mem a hr)
    simp [increment_clicks] at ih ⊢
    exact ⟨by simp [ha], ih hrest⟩

/-- C10 witness: incrementing a primary key absent from a concrete
one-row store leaves it unchanged. -/
theorem increment_clicks_missing_pk_noop_witness :
    (∀ r ∈ [({ pk := 7, short_code := some "abc123", original_url := "https://example.com",
               domain := some "go.example", title := "", clicks := 3, created_at := 0,
               updated_at := 0, expires_at := none, is_active := true : ShortURL })],
        r.pk ≠ 9) ∧
    increment_clicks 9
      [({ pk := 7, short_code := some "abc123", original_url := "https://example.com",
          domain := some "go.example", title := "", clicks := 3, created_at := 0,
          updated_at := 0, expires_at := none, is_active := true : ShortURL })] =
      [({ pk := 7, short_code := some "abc123", original_url := "https://example.com",
          domain := some "go.example", title := "", clicks := 3, created_at := 0,
          updated_at := 0, expires_at := none, is_active := true : ShortURL })] :=
  ⟨by decide, increment_clicks_missing_pk_noop _ 9 (by decide)⟩

/- ------------------------------------------------------------------ -/
/- Theorems about code allocation (ShortURL.save).                    -/
/- ------------------------------------------------------------------ -/

/-- Characterisation of the candidate loop: a none result means every
attempt collided; a some result is the first candidate that did not. -/
theorem candidateLoop_spec (store : List ShortURL) (domain : Option String)
    (cand : Nat → String) :
    ∀ fuel start,
      (candidateLoop store domain cand start fuel = none →
        ∀ k, k < fuel → codeExists store domain (cand (start + k)) = true) ∧
      (∀ c, candidateLoop store domain cand start fuel = some c →
        ∃ k, k < fuel ∧ c = cand (start + k) ∧
          codeExists store domain (cand (start + k)) = false ∧
          ∀ j, j < k → codeExists store domain (cand (start + j)) = true) := by
  intro fuel
  induction fuel with
  | zero =>
    intro start
    constructor
    · intro _ k hk
      exact absurd hk (Nat.not_lt_zero k)
    · intro c hc
      simp [candidateLoop] at hc
  | succ n ih =>
    intro start
    constructor
    · intro hnone k hk
      by_cases hex : codeExists store domain (cand start) = true
      · rcases Nat.eq_zero_or_pos k with hk0 | hkpos
        · subst hk0
          simpa using hex
        · obtain ⟨k', rfl⟩ := Nat.exists_eq_add_of_lt hkpos
          simp only [candidateLoop, hex, if_true] at hnone
          have := (ih (start + 1)).1 hnone k' (by omega)
          have harith : start + 1 + k' = start + (0 + k' + 1) := by omega
          rw [harith] at this
          exact this
      · simp only [candidateLoop] at hnone
        rw [if_neg hex] at hnone
        cases hnone
    · intro c hc
      by_cases hex : codeExists store domain (cand start) = true
      · simp only [candidateLoop, hex, if_true] at hc
        obtain ⟨k, hk, hcand, hfree, hprev⟩ := (ih (start + 1)).2 c hc
        refine ⟨k + 1, by omega, ?_, ?_, ?_⟩
        · rw [hcand]
          congr 1
          omega
        · have harith : start + 1 + k = start + (k + 1) := by omega
          rw [harith] at hfree
          exact hfree
        · intro j hj
          rcases Nat.eq_zero_or_pos j with hj0 | hjpos
          · subst hj0
            simpa using hex
          · obtain ⟨j', rfl⟩ := Nat.exists_eq_add_of_lt hjpos
            have := hprev j' (by omega)
            have harith : start + 1 + j' = start + (0 + j' + 1) := by omega
            rw [harith] at this
            exact this
      · simp only [candidateLoop] at hc
        rw [if_neg hex] at hc
        refine ⟨0, by omega, ?_, ?_, ?_⟩
        · cases hc
          simp
        · simpa using (Bool.eq_false_iff.mpr hex)
        · intro j hj
          exact absurd hj (Nat.not_lt_zero j)

/-- C1: with no caller-supplied code, save inserts the row with some
generated code; that code is either the first of at most 10 length-6
candidates that passed the existence check (every earlier candidate
collided), or, exactly when all 10 length-6 candidates collided, the
single unchecked length-8 fallback candidate; in both cases the insert
is then attempted. -/
theorem save_autogenerates_code (rnd : Nat → Nat → Fin 62) (rnd8 : Nat → Fin 62)
    (store : List ShortURL) (self : ShortURL)
    (h : codeTruthy self.short_code = false) :
    ∃ code, ShortURL.save rnd rnd8 self store =
        insertRow store { self with short_code := some code } ∧
      (((∀ i, i < 10 → codeExists store self.domain (generate_short_code (rnd i) 6) = true) ∧
        code = generate_short_code rnd8 8 ∧ code.length = 8) ∨
       (∃ i, i < 10 ∧ code = generate_short_code (rnd i) 6 ∧ code.length = 6 ∧
         codeExists store self.domain code = false ∧
         ∀ j, j < i → codeExists store self.domain (generate_short_code (rnd j) 6) = true)) := by
  have hlen : ∀ (choice : Nat → Fin 62) (n : Nat),
      (generate_short_code choice n).length = n := by
    intro choice n
    simp [generate_short_code, String.length]
  unfold ShortURL.save
  rw [h]
  simp only [Bool.false_eq_true, if_false]
  cases hcl : candidateLoop store self.domain (fun i => generate_short_code (rnd i) 6) 0 10 with
  | none =>
    refine ⟨generate_short_code rnd8 8, rfl, Or.inl ⟨?_, rfl, hlen rnd8 8⟩⟩
    intro i hi
    have := (candidateLoop_spec store self.domain
      (fun i => generate_short_code (rnd i) 6) 10 0).1 hcl i hi
    simpa using this
  | some c =>
    obtain ⟨k, hk, hcand, hfree, hprev⟩ := (candidateLoop_spec store self.domain
      (fun i => generate_short_code (rnd i) 6) 10 0).2 c hcl
    refine ⟨c, rfl, Or.inr ⟨k, hk, by simpa using hcand, ?_, ?_, ?_⟩⟩
    · rw [show c = generate_short_code (rnd k) 6 by simpa using hcand]
      exact hlen (rnd k) 6
    · rw [show c = generate_short_code (rnd k) 6 by simpa using hcand]
      simpa using hfree
    · intro j hj
      have := hprev j hj
      simpa using this

/-- C1 witness: saving a concrete row without a code into the empty store
follows the generated-code characterisation. -/
theorem save_autogenerates_code_witness :
    (codeTruthy rowAuto.short_code = false) ∧
    ∃ code, ShortURL.save zeroRnd zeroRnd8 rowAuto [] =
        insertRow [] { rowAuto with short_code := some code } ∧
      (((∀ i, i < 10 → codeExists [] rowAuto.domain
            (generate_short_code (zeroRnd i) 6) = true) ∧
        code = generate_short_code zeroRnd8 8 ∧ code.length = 8) ∨
       (∃ i, i < 10 ∧ code = generate_short_code (zeroRnd i) 6 ∧
         code.length = 6 ∧ codeExists [] rowAuto.domain code = false ∧
         ∀ j, j < i → codeExists [] rowAuto.domain
           (generate_short_code (zeroRnd j) 6) = true)) :=
  ⟨rfl, save_autogenerates_code zeroRnd zeroRnd8 [] rowAuto rfl⟩

/-- C2: with a caller-supplied nonempty code, save performs exactly one
insert attempt of the unmodified row: when the (domain, code) pair is
already present the attempt fails with conflictError and the store is
unchanged, otherwise the row is appended as supplied. -/
theorem save_explicit_code_single_attempt (rnd : Nat → Nat → Fin 62) (rnd8 : Nat → Fin 62)
    (store : List ShortURL) (self : ShortURL) (c : String)
    (hc : self.short_code = some c) (hne : c ≠ "") :
    ShortURL.save rnd rnd8 self store = insertRow store self ∧
    (codeExists store self.domain c = true →
      ShortURL.save rnd rnd8 self store = (store, Except.error SaveError.conflictError)) ∧
    (codeExists store self.domain c = false →
      ShortURL.save rnd rnd8 self store = (store ++ [self], Except.ok self)) := by
  have htruthy : codeTruthy self.short_code = true := by
    rw [hc]
    simpa [codeTruthy] using hne
  have hsave : ShortURL.save rnd rnd8 self store = insertRow store self := by
    unfold ShortURL.save
    rw [htruthy]
    simp
  refine ⟨hsave, ?_, ?_⟩
  · intro hex
    rw [hsave]
    unfold insertRow
    rw [show (store.any fun r => r.short_code == self.short_code && r.domain == self.domain)
          = true by simpa [codeExists, hc] using hex]
    simp
  · intro hex
    rw [hsave]
    unfold insertRow
    rw [show (store.any fun r => r.short_code == self.short_code && r.domain == self.domain)
          = false by simpa [codeExists, hc] using hex]
    simp

/-- C2 witness: a concrete row with explicit code promo1 conflicts with a
store already holding (go.example, promo1) and the store is unchanged. -/
theorem save_explicit_code_single_attempt_witness :
    (rowPromoOther.short_code = some "promo1") ∧
    ("promo1" ≠ "") ∧
    (codeExists [rowPromo] rowPromoOther.domain "promo1" = true →
      ShortURL.save zeroRnd zeroRnd8 rowPromoOther [rowPromo] =
        ([rowPromo], Except.error SaveError.conflictError)) :=
  ⟨rfl, by decide,
    (save_explicit_code_single_attempt zeroRnd zeroRnd8
      [rowPromo] rowPromoOther "promo1" rfl (by decide)).2.1⟩

/- ------------------------------------------------------------------ -/
/- Theorems about the domain registry (internal_views.py).            -/
/- ------------------------------------------------------------------ -/

/-- Membership in a written-back store: every row is either the written
row or one of the original rows. -/
theorem writeBack_mem (store : List DomainConfiguration)
    (c x : DomainConfiguration) (hx : x ∈ writeBack store c) :
    x = c ∨ x ∈ store := by
  simp only [writeBack, List.mem_map] at hx
  obtain ⟨r, hr, hrx⟩ := hx
  by_cases h : (r.domain == c.domain) = true
  · rw [if_pos h] at hrx
    exact Or.inl hrx.symm
  · rw [if_neg h] at hrx
    exact Or.inr (hrx ▸ hr)

/-- C6: configure_domain creates an unknown domain as pending,
unverified and active; reactivates an existing inactive domain,
overwriting account_id, domain_type, use_caddy and notes and resetting
ssl_status to pending; and answers conflict for an existing active
domain, leaving the store unchanged. -/
theorem configure_domain_cases (store : List DomainConfiguration) (d : String)
    (aid : Int) (dty : String) (uc : Bool) (nts : String) :
    (store.find? (fun r => r.domain == d) = none →
      ∃ c, configure_domain store d aid dty uc nts =
          (store ++ [c], ConfigureResult.created c) ∧
        c.ssl_status = "pending" ∧ c.is_verified = false ∧ c.is_active = true ∧
        c.domain = d ∧ c.account_id = aid ∧ c.domain_type = dty ∧
        c.use_caddy = uc ∧ c.notes = nts) ∧
    (∀ e, store.find? (fun r => r.domain == d) = some e → e.is_active = false →
      ∃ c, configure_domain store d aid dty uc nts =
          (writeBack store c, ConfigureResult.reactivated c) ∧
        c.is_active = true ∧ c.ssl_status = "pending" ∧ c.account_id = aid ∧
        c.domain_type = dty ∧ c.use_caddy = uc ∧ c.notes = nts) ∧
    (∀ e, store.find? (fun r => r.domain == d) = some e → e.is_active = true →
      configure_domain store d aid dty uc nts = (store, ConfigureResult.conflict)) := by
  refine ⟨?_, ?_, ?_⟩
  · intro hfind
    refine ⟨{ domain := d, account_id := aid, domain_type := dty, is_verified := false,
              is_active := true, ssl_status := "pending", ssl_issued_at := none,
              ssl_expires_at := none, use_caddy := uc, notes := nts },
      ?_, rfl, rfl, rfl, rfl, rfl, rfl, rfl, rfl⟩
    unfold configure_domain
    rw [hfind]
  · intro e hfind hact
    refine ⟨{ e with is_active := true, account_id := aid, domain_type := dty,
                     use_caddy := uc, notes := nts, ssl_status := "pending" },
      ?_, rfl, rfl, rfl, rfl, rfl, rfl⟩
    unfold configure_domain
    rw [hfind]
    simp [hact]
  · intro e hfind hact
    unfold configure_domain
    rw [hfind]
    simp [hact]

/-- C6 witness: configuring a fresh domain in the empty registry creates
it pending, unverified and active. -/
theorem configure_domain_cases_witness :
    (List.find? (fun r => r.domain == "forms.client.com")
      ([] : List DomainConfiguration) = none) ∧
    (∃ c, configure_domain [] "forms.client.com" 42 "forms" true "" =
        ([] ++ [c], ConfigureResult.created c) ∧
      c.ssl_status = "pending" ∧ c.is_verified = false ∧ c.is_active = true ∧
      c.domain = "forms.client.com" ∧ c.account_id = 42 ∧ c.domain_type = "forms" ∧
      c.use_caddy = true ∧ c.notes = "") :=
  ⟨rfl, (configure_domain_cases [] "forms.client.com" 42 "forms" true "").1 rfl⟩

/-- C9: when configure_domain reactivates an existing inactive domain,
the stored is_verified flag is carried over unchanged. -/
theorem configure_reactivation_keeps_is_verified
    (store : List DomainConfiguration) (d : String) (aid : Int) (dty : String)
    (uc : Bool) (nts : String) (e : DomainConfiguration)
    (hfind : store.find? (fun r => r.domain == d) = some e)
    (hact : e.is_active = false) :
    ∃ c, configure_domain store d aid dty uc nts =
        (writeBack store c, ConfigureResult.reactivated c) ∧
      c.is_verified = e.is_verified := by
  refine ⟨{ e with is_active := true, account_id := aid, domain_type := dty,
                   use_caddy := uc, notes := nts, ssl_status := "pending" }, ?_, rfl⟩
  unfold configure_domain
  rw [hfind]
  simp [hact]

/-- C9 witness: reactivating a concrete inactive but verified domain
keeps it verified. -/
theorem configure_reactivation_keeps_is_verified_witness :
    (List.find? (fun r => r.domain == "forms.client.com")
      [dcInactiveVerified] = some dcInactiveVerified) ∧
    (dcInactiveVerified.is_active = false) ∧
    (∃ c, configure_domain [dcInactiveVerified] "forms.client.com" 7 "payment" false "new" =
        (writeBack [dcInactiveVerified] c, ConfigureResult.reactivated c) ∧
      c.is_verified = dcInactiveVerified.is_verified) :=
  ⟨by decide, rfl,
    configure_reactivation_keeps_is_verified [dcInactiveVerified] "forms.client.com"
      7 "payment" false "new" dcInactiveVerified (by decide) rfl⟩

/-- C7: update_domain_ssl_status on an existing domain saves back a row
that is verified with ssl_status active when the supplied status is
active, and whose is_verified flag is unchanged for any other supplied
status. -/
theorem update_ssl_status_active_verifies (pd : String → Option Int)
    (store : List DomainConfiguration) (d : String)
    (st iss ex : Option String) (c0 : DomainConfiguration)
    (hfind : store.find? (fun r => r.domain == d) = some c0) :
    ∃ c, update_domain_ssl_status pd store d st iss ex =
        (writeBack store c, SslUpdateResult.ok c) ∧
      (st = some "active" → c.is_verified = true ∧ c.ssl_status = "active") ∧
      (st ≠ some "active" → c.is_verified = c0.is_verified) := by
  unfold update_domain_ssl_status
  rw [hfind]
  refine ⟨_, rfl, ?_, ?_⟩
  · intro h
    subst h
    cases iss <;> cases ex <;>
      simp [apply_ite DomainConfiguration.is_verified,
        apply_ite DomainConfiguration.ssl_status]
  · intro h
    have hbeq : (st == some "active") = false := by
      simpa using h
    cases hst : st with
    | none =>
      cases iss <;> cases ex <;>
        simp [hbeq, apply_ite DomainConfiguration.is_verified]
    | some s =>
      rw [hst] at hbeq
      cases iss <;> cases ex <;>
        simp [hbeq, apply_ite DomainConfiguration.is_verified]

/-- C7 witness: reporting status active for a concrete pending domain
marks it verified with ssl_status active. -/
theorem update_ssl_status_active_verifies_witness :
    (List.find? (fun r => r.domain == "forms.client.com")
      [dcPending] = some dcPending) ∧
    (∃ c, update_domain_ssl_status noParse [dcPending] "forms.client.com"
        (some "active") none none =
        (writeBack [dcPending] c, SslUpdateResult.ok c) ∧
      (some "active" = some "active" → c.is_verified = true ∧ c.ssl_status = "active") ∧
      (some "active" ≠ some "active" → c.is_verified = dcPending.is_verified)) :=
  ⟨by decide,
    update_ssl_status_active_verifies noParse [dcPending] "forms.client.com"
      (some "active") none none dcPending (by decide)⟩

/-- C8 counterexample: starting from the public operations alone
(configure, then update_ssl_status with the non-enum string banana), the
stored ssl_status becomes banana, outside SSL_STATUS_CHOICES: the view
copies any truthy supplied status into the column without validation. -/
theorem update_ssl_status_escapes_enum :
    validSslStatus
      (((update_domain_ssl_status noParse
          (configure_domain [] "forms.client.com" 42 "forms" true "").1
          "forms.client.com" (some "banana") none none).1.headD dcPending).ssl_status)
      = false ∧
    ((update_domain_ssl_status noParse
        (configure_domain [] "forms.client.com" 42 "forms" true "").1
        "forms.client.com" (some "banana") none none).1.headD dcPending).ssl_status
      = "banana" := by
  constructor
  · rfl
  · rfl

/-- C8 amended: the ssl_status of every stored configuration stays inside
SSL_STATUS_CHOICES under configure_domain and remove_domain
unconditionally, and under update_domain_ssl_status provided the supplied
status, when truthy, is itself one of the four enum values (the view
itself never checks this). -/
theorem ssl_status_enum_preserved (store : List DomainConfiguration)
    (hstore : sslInvariant store) :
    (∀ d aid dty uc nts, sslInvariant (configure_domain store d aid dty uc nts).1) ∧
    (∀ d hard, sslInvariant (remove_domain store d hard).1) ∧
    (∀ pd d st iss ex,
      (∀ s, st = some s → s ≠ "" → validSslStatus s = true) →
      sslInvariant (update_domain_ssl_status pd store d st iss ex).1) := by
  refine ⟨?_, ?_, ?_⟩
  · intro d aid dty uc nts x hx
    cases hfind : store.find? (fun r => r.domain == d) with
    | none =>
      simp only [configure_domain, hfind] at hx
      rcases List.mem_append.mp hx with hx | hx
      · exact hstore x hx
      · rw [List.mem_singleton.mp hx]
        rfl
    | some e =>
      simp only [configure_domain, hfind] at hx
      by_cases hact : e.is_active = true
      · rw [if_pos hact] at hx
        exact hstore x hx
      · rw [if_neg hact] at hx
        rcases writeBack_mem _ _ _ hx with hx | hx
        · subst hx
          rfl
        · exact hstore x hx
  · intro d hard x hx
    cases hfind : store.find? (fun r => r.domain == d) with
    | none =>
      simp only [remove_domain, hfind] at hx
      exact hstore x hx
    | some e =>
      simp only [remove_domain, hfind] at hx
      by_cases hh : hard = true
      · rw [if_pos hh] at hx
        exact hstore x (List.mem_of_mem_filter hx)
      · rw [if_neg hh] at hx
        rcases writeBack_mem _ _ _ hx with hx | hx
        · subst hx
          exact hstore e (List.mem_of_find?_eq_some hfind)
        · exact hstore x hx
  · intro pd d st iss ex hval x hx
    cases hfind : store.find? (fun r => r.domain == d) with
    | none =>
      simp only [update_domain_ssl_status, hfind] at hx
      exact hstore x hx
    | some c0 =>
      simp only [update_domain_ssl_status, hfind] at hx
      have hc0 : validSslStatus c0.ssl_status = true :=
        hstore c0 (List.mem_of_find?_eq_some hfind)
      rcases writeBack_mem _ _ _ hx with hx | hx
      · subst hx
        cases hst : st with
        | none =>
          cases iss <;> cases ex <;>
            simp [hst, apply_ite DomainConfiguration.ssl_status, hc0]
        | some s =>
          by_cases hs : s = ""
          · subst hs
            cases iss <;> cases ex <;>
              simp [hst, apply_ite DomainConfiguration.ssl_status, hc0]
          · have hvs : validSslStatus s = true := hval s hst hs
            have hsb : (s != "") = true := by
              simpa using hs
            cases iss <;> cases ex <;>
              simp [hst, hsb, apply_ite DomainConfiguration.ssl_status, hvs]
      · exact hstore x hx

/-- C8 amended witness: a concrete pending registry keeps its ssl_status
inside the enum when status active is reported. -/
theorem ssl_status_enum_preserved_witness :
    sslInvariant [dcPending] ∧
    (∀ s, (some "active" : Option String) = some s → s ≠ "" → validSslStatus s = true) ∧
    sslInvariant (update_domain_ssl_status noParse [dcPending] "forms.client.com"
      (some "active") none none).1 :=
  ⟨by
     unfold sslInvariant
     decide,
   by
     intro s hs _
     injection hs with h
     rw [← h]
     rfl,
   (ssl_status_enum_preserved [dcPending]
       (by
         unfold sslInvariant
         decide)).2.2 noParse "forms.client.com"
     (some "active") none none
     (by
       intro s hs _
       injection hs with h
       rw [← h]
       rfl)⟩
